import Mathlib

/-
  Verification of the contact resolution and message-channel selection
  pipeline of the contact-messenger-bot repository.

  The definitions below are a shallow embedding of the Python sources:
    contact_messenger_bot/api/models.py
    contact_messenger_bot/api/utils.py
    contact_messenger_bot/api/constants.py
    contact_messenger_bot/api/services/messaging/service.py
    contact_messenger_bot/api/services/messaging/text.py
    contact_messenger_bot/api/services/contacts.py

  Strings are Lean Strings; Python str.casefold is modelled as ASCII
  lowercasing (all labels and truthy values in the sources are ASCII).
  Exceptions are modelled with Except, side-effecting transport sends as
  an explicit trace of Send records, and the randomized message-template
  pick is abstracted: a trace entry records the channel, the event type
  and the salutation that the templated text is built from.
-/

namespace ContactBot

/-- Python exception kinds that the modelled code can raise. -/
inductive PyErr where
  | attributeError
  | valueError
  | assertionError
  | transportError
deriving DecidableEq

/-- models.py Country enum: only US is recognized. -/
inductive Country where
  | US
deriving DecidableEq

/-- Model of str.casefold for the ASCII strings used by the sources. -/
def casefold (s : String) : String :=
  String.mk (s.data.map Char.toLower)

/-- constants.py HOME_LABEL. -/
def HOME_LABEL : String := "home"

/-- constants.py PHONE_LABEL. -/
def PHONE_LABEL : String := "phone"

/-- constants.py MOBILE_LABEL. -/
def MOBILE_LABEL : String := "mobile"

/-- constants.py TRUTHY. -/
def TRUTHY : List String := ["true", "1"]

/-- constants.py EMAIL_ADDRESS_LABELS. -/
def EMAIL_ADDRESS_LABELS : List String := [HOME_LABEL, MOBILE_LABEL, PHONE_LABEL]

/-- constants.py MOBILE_LABELS. -/
def MOBILE_LABELS : List String := [MOBILE_LABEL, PHONE_LABEL]

/-- constants.py defines no BOT_LABEL attribute, though services/contacts.py
reads constants.BOT_LABEL; Python module attribute lookup of a missing name
raises AttributeError, modelled here as the absent value none. -/
def BOT_LABEL : Option String := none

/-- utils.py is_truthy: None yields the default, otherwise membership of the
casefolded value in constants.TRUTHY. -/
def is_truthy (value : Option String) (default : Bool := false) : Bool :=
  match value with
  | none => default
  | some v => decide (casefold v ∈ TRUTHY)

/-- Model of the character class of a Python ASCII whitespace for the regex
escape in utils.py US_CANOICAL_PHONE_NUMBER. -/
def isPySpace (c : Char) : Bool :=
  c = ' ' || c = '\t' || c = '\n' || c = '\r' || c = '\x0b' || c = '\x0c'

/-- Ten ASCII decimal digits, the regex fragment of utils.py. -/
def tenDigits (l : List Char) : Bool :=
  l.length == 10 && l.all Char.isDigit

/-- utils.py is_us_phone_number: full match of the anchored regex with an
optional plus-one prefix, itself followed by an optional single whitespace,
then exactly ten digits. -/
def is_us_phone_number (s : String) : Bool :=
  match s.data with
  | '+' :: '1' :: rest =>
    tenDigits rest ||
      (match rest with
       | c :: rest2 => isPySpace c && tenDigits rest2
       | [] => false)
  | l => tenDigits l

/-- models.py PhoneNumber. -/
structure PhoneNumber where
  number : String
  is_primary : Bool
  is_bot : Bool := false
deriving DecidableEq

/-- PhoneNumber.country from models.py. -/
def PhoneNumber.country (n : PhoneNumber) : Option Country :=
  if is_us_phone_number n.number then some Country.US else none

/-- PhoneNumber.shortnumber from models.py: for a US number, the last ten
characters after dropping dashes; otherwise the number unchanged. -/
def PhoneNumber.shortnumber (n : PhoneNumber) : String :=
  if n.country = some Country.US then
    let stripped := n.number.data.filter (fun c => c ≠ '-')
    String.mk (stripped.drop (stripped.length - 10))
  else n.number

/-- models.py EmailAddress. -/
structure EmailAddress where
  address : String
  is_primary : Bool
  is_phone : Bool
  is_bot : Bool := false
deriving DecidableEq

/-- Carrier descriptor: the concrete MobileCarrier subclasses of models.py,
all of country US, each with a gateway domain and an enabled flag. -/
structure MobileCarrier where
  name : String
  domain : String
  enabled : Bool
deriving DecidableEq

/-- MobileCarrier.get_carriers resolved statically, in the subclass
discovery order of models.py: ATT (disabled), GoogleFi, TMobile, Verison. -/
def carriers : List MobileCarrier :=
  [⟨"ATT", "txt.att.net", false⟩,
   ⟨"GoogleFi", "msg.fi.google.com", true⟩,
   ⟨"TMobile", "tmomail.com", true⟩,
   ⟨"Verison", "vtext.com", true⟩]

/-- USMobileCarrier.get_email from models.py: the gateway address when the
number's country matches the carrier's country (US), otherwise None. -/
def carrier_get_email (cr : MobileCarrier) (n : PhoneNumber) : Option String :=
  if n.country = some Country.US then some (n.shortnumber ++ "@" ++ cr.domain) else none

/-- PhoneNumber.get_email_addresses from models.py: one EmailAddress per
enabled carrier that yields an address, inheriting the number's flags. -/
def PhoneNumber.get_email_addresses (n : PhoneNumber) : List EmailAddress :=
  (carriers.filter (fun cr => cr.enabled)).filterMap
    (fun cr => (carrier_get_email cr n).map
      (fun addr => ⟨addr, n.is_primary, true, n.is_bot⟩))

/-- models.py DateType. -/
inductive DateType where
  | BIRTHDAY
  | ANNIVERSARY
deriving DecidableEq

/-- A Python datetime.date restricted to the fields the core reads. -/
structure PyDate where
  year : Nat
  month : Nat
  day : Nat
deriving DecidableEq

/-- models.py DateTuple. -/
structure DateTuple where
  type : DateType
  date : PyDate
deriving DecidableEq

/-- DateTuple.is_today: compares month and day only. -/
def DateTuple.is_today (dt : DateTuple) (test : PyDate) : Bool :=
  test.month == dt.date.month && test.day == dt.date.day

/-- models.py Address. -/
structure Address where
  postal_code : String
  tz : Option String
deriving DecidableEq

/-- models.py Contact. -/
structure Contact where
  given_name : String
  display_name : String
  nickname : Option String
  mobile_numbers : List PhoneNumber
  dates : List DateTuple
  home_addresses : List Address
  email_addresses : List EmailAddress
  groups : List String
  metadata : List (String × String)
deriving DecidableEq

/-- models.py CustomFields.BOT_SALUATION value. -/
def BOT_SALUATION : String := "BOT_SALUATION"

/-- models.py CustomFields.BOT_OPT_OUT value. -/
def BOT_OPT_OUT : String := "BOT_OPT_OUT"

/-- Python `a or b` on an optional string: the string when present and
non-empty (truthy), otherwise the fallback. -/
def pyOrStr (a : Option String) (b : String) : String :=
  match a with
  | some s => if s = "" then b else s
  | none => b

/-- Contact.saluation: custom-field override, else nickname, else given
name, with Python or-chaining falsiness. -/
def Contact.saluation (c : Contact) : String :=
  pyOrStr (c.metadata.lookup BOT_SALUATION) (pyOrStr c.nickname c.given_name)

/-- Contact.opt_out_messages: is_truthy of the BOT_OPT_OUT metadata value. -/
def Contact.opt_out_messages (c : Contact) : Bool :=
  is_truthy (c.metadata.lookup BOT_OPT_OUT)

/-- Contact.can_notify_today. -/
def Contact.can_notify_today (c : Contact) (test : PyDate) : Bool :=
  c.dates.any (fun dt => dt.is_today test)

/-- Contact.is_member: nonempty intersection of the given casefolded group
set with the contact's casefolded groups. -/
def Contact.is_member (c : Contact) (gs : List String) : Bool :=
  c.groups.any (fun g => gs.contains (casefold g))

/-- Contact.get_primary_mobile_email_address from models.py: restrict to
is_phone addresses; None when there are none; else the first is_primary
one; else the first of the list. -/
def Contact.get_primary_mobile_email_address (c : Contact) : Option EmailAddress :=
  match c.email_addresses.filter (fun a => a.is_phone) with
  | [] => none
  | a :: rest =>
    match (a :: rest).find? (fun x => x.is_primary) with
    | some pa => some pa
    | none => some a

/-- Contact.get_primary_email_address from models.py: first is_bot address,
else first is_primary address, else None. -/
def Contact.get_primary_email_address (c : Contact) : Option EmailAddress :=
  match c.email_addresses.find? (fun a => a.is_bot) with
  | some b => some b
  | none => c.email_addresses.find? (fun a => a.is_primary)

/-- Contact.get_us_mobile_number from models.py: restrict to US-classified
numbers; first is_bot, else first is_primary, else first, else None. -/
def Contact.get_us_mobile_number (c : Contact) : Option PhoneNumber :=
  let us := c.mobile_numbers.filter (fun n => n.country = some Country.US)
  match us.find? (fun n => n.is_bot) with
  | some b => some b
  | none =>
    match us.find? (fun n => n.is_primary) with
    | some p => some p
    | none => us.head?

/-- Python truthiness gate of models.py get_all_mobile_email_addresses: the
first pair whose number satisfies the predicate, kept only when its derived
address list is itself non-empty (None and the empty list are both falsy). -/
def truthySetFind (pairs : List (PhoneNumber × List EmailAddress))
    (pred : PhoneNumber → Bool) : Option (List EmailAddress) :=
  match pairs.find? (fun pr => pred pr.1) with
  | some pr => if pr.2.isEmpty then none else some pr.2
  | none => none

/-- Contact.get_all_mobile_email_addresses from models.py: pair each mobile
number with its derived gateway addresses; empty when there are no numbers;
else the first bot number's non-empty set, else the first primary number's
non-empty set, else the FIRST pair's set (which may be empty). -/
def Contact.get_all_mobile_email_addresses (c : Contact) : List EmailAddress :=
  match c.mobile_numbers.map (fun n => (n, n.get_email_addresses)) with
  | [] => []
  | p :: ps =>
    match truthySetFind (p :: ps) (fun n => n.is_bot) with
    | some ea => ea
    | none =>
      match truthySetFind (p :: ps) (fun n => n.is_primary) with
      | some ea => ea
      | none => p.2

/-- models.py Profile. -/
structure Profile where
  given_name : String
  display_name : String
  mobile_number : PhoneNumber
  email_address : EmailAddress
deriving DecidableEq

/-- A transport send performed by a rule of services/messaging/service.py.
The templated text is abstracted by the event type and the salutation it is
generated from (the template pick is random); withSubject records whether a
subject line is supplied (only the plain-email rule supplies one). -/
inductive Send where
  | emailOne (dst : EmailAddress) (dtype : DateType) (sal : String) (withSubject : Bool)
  | emailMany (dst : List EmailAddress) (dtype : DateType) (sal : String)
  | sms (sender dst : PhoneNumber) (dtype : DateType) (sal : String)
deriving DecidableEq

/-- Whether a send is a direct text message. -/
def Send.isText : Send → Bool
  | .sms _ _ _ _ => true
  | _ => false

/-- The outcome of a transport call: none models a normal return, some e an
exception propagating out of email.send_message or text.send_message. -/
abbrev Transport := Send → Option PyErr

/-- SendMessageRule of service.py: given profile, contact, applicable dates,
salutation and the dry-run flag, a rule performs zero or more sends and then
returns a Bool or raises; the sends performed before a raise are kept. -/
abbrev Rule := Profile → Contact → List DateTuple → String → Bool →
  List Send × Except PyErr Bool

namespace Messaging

/-- The per-date send loop shared by all four rules of service.py: one
transport call per applicable date, stopping at the first raised exception
(sends already performed remain performed); True on completion. -/
def sendLoop (tr : Transport) (mk : DateTuple → Send) :
    List DateTuple → List Send × Except PyErr Bool
  | [] => ([], Except.ok true)
  | d :: ds =>
    match tr (mk d) with
    | some e => ([], Except.error e)
    | none =>
      let k := sendLoop tr mk ds
      (mk d :: k.1, k.2)

/-- Messaging._email_mobile_rule: carrier-gateway email to the primary
mobile email address, without a subject. -/
def email_mobile_rule (tr : Transport) : Rule := fun _p c sds sal _dry =>
  match c.get_primary_mobile_email_address with
  | none => ([], Except.ok false)
  | some addr => sendLoop tr (fun d => Send.emailOne addr d.type sal false) sds

/-- Messaging._text_rule: direct text from the profile's mobile number to
the contact's preferred US mobile number. -/
def text_rule (tr : Transport) : Rule := fun p c sds sal _dry =>
  match c.get_us_mobile_number with
  | none => ([], Except.ok false)
  | some n => sendLoop tr (fun d => Send.sms p.mobile_number n d.type sal) sds

/-- Messaging._email_mobile_wide_rule: carrier-gateway email to all
candidate addresses at once, without a subject. -/
def email_mobile_wide_rule (tr : Transport) : Rule := fun _p c sds sal _dry =>
  let addrs := c.get_all_mobile_email_addresses
  if addrs.isEmpty then ([], Except.ok false)
  else sendLoop tr (fun d => Send.emailMany addrs d.type sal) sds

/-- Messaging._email_rule: plain email to the primary email address, with a
subject line. -/
def email_rule (tr : Transport) : Rule := fun _p c sds sal _dry =>
  match c.get_primary_email_address with
  | none => ([], Except.ok false)
  | some addr => sendLoop tr (fun d => Send.emailOne addr d.type sal true) sds

/-- Messaging._create_send_message_rules: the ordered rule list built from
the two transport capability flags. -/
def create_send_message_rules (tr : Transport) (emailSup textSup : Bool) : List Rule :=
  (if emailSup then [email_mobile_rule tr] else []) ++
    (if textSup then [text_rule tr] else []) ++
    (if emailSup then [email_mobile_wide_rule tr, email_rule tr] else [])

/-- The rule loop of Messaging._create_send_message.apply: try each rule in
order; stop with True at the first rule returning True; a raised exception
is caught, counted as a logged failure, and evaluation continues with the
next rule. Returns the outcome, the trace of sends, and the number of
logged rule failures. -/
def runRules (p : Profile) (c : Contact) (sds : List DateTuple) (sal : String)
    (dry : Bool) : List Rule → Bool × List Send × Nat
  | [] => (false, [], 0)
  | r :: rest =>
    match r p c sds sal dry with
    | (sends, Except.ok true) => (true, sends, 0)
    | (sends, Except.ok false) =>
      let k := runRules p c sds sal dry rest
      (k.1, sends ++ k.2.1, k.2.2)
    | (sends, Except.error _) =>
      let k := runRules p c sds sal dry rest
      (k.1, sends ++ k.2.1, k.2.2 + 1)

/-- Messaging._create_send_message.apply: with an empty rule list only a
log line is emitted; otherwise return early on opt-out, then on an empty
list of applicable dates, then run the rules in order. -/
def apply (rules : List Rule) (p : Profile) (c : Contact) (date : PyDate)
    (dry : Bool) : Bool × List Send × Nat :=
  if rules.isEmpty then (false, [], 0)
  else if c.opt_out_messages then (false, [], 0)
  else
    let send_dates := c.dates.filter (fun dt => dt.is_today date)
    if send_dates.isEmpty then (false, [], 0)
    else runRules p c send_dates c.saluation dry rules

/-- utils.py to_frozen_set: None for a missing or empty collection, else
the casefolded members (modelled as a list; only membership is consumed). -/
def to_frozen_set (groups : Option (List String)) : Option (List String) :=
  match groups with
  | none => none
  | some gs =>
    let r := gs.map casefold
    if r.isEmpty then none else some r

/-- Messaging.supported_protocols from the two capability flags. -/
def supported_protocols (emailSup textSup : Bool) : List String :=
  (if emailSup then ["email"] else []) ++ (if textSup then ["text"] else [])

/-- Messaging._filter_contacts: the contacts that are members of the given
group set. -/
def filter_contacts (gs : List String) (contacts : List Contact) : List Contact :=
  contacts.filter (fun c => c.is_member gs)

/-- Messaging.send_messages: return early when no protocol is supported;
when a group restriction is set, _filter_contacts is evaluated but its
result is discarded (as in the source), the emptiness guard and the
dispatch loop both use the original contacts. One apply outcome per
dispatched contact. -/
def send_messages (tr : Transport) (emailSup textSup : Bool)
    (groupsArg : Option (List String)) (p : Profile) (contacts : List Contact)
    (date : PyDate) (dry : Bool) : List (Bool × List Send × Nat) :=
  if (supported_protocols emailSup textSup).isEmpty then []
  else
    match to_frozen_set groupsArg with
    | some g =>
      let _discarded := filter_contacts g contacts
      if contacts.isEmpty then []
      else contacts.map (fun c => apply (create_send_message_rules tr emailSup textSup) p c date dry)
    | none =>
      contacts.map (fun c => apply (create_send_message_rules tr emailSup textSup) p c date dry)

end Messaging

namespace TextService

/-- settings/text.py TextMessagingAuth. -/
structure TextMessagingAuth where
  account : String
  token : String
deriving DecidableEq

/-- settings/text.py TextMessagingSettings. -/
structure TextMessagingSettings where
  sender : String
  auth : Option TextMessagingAuth
deriving DecidableEq

/-- The ambient settings object of settings/base.py, restricted to the text
field read by services/messaging/text.py. -/
structure SettingsEnv where
  text : Option TextMessagingSettings
deriving DecidableEq

/-- The ways text.send_message can return normally. -/
inductive TextOutcome where
  | warnedNotSupported
  | dryRunLogged
  | sent
deriving DecidableEq

/-- text.py is_supported: bool(settings.text and settings.text.auth). -/
def is_supported (s : SettingsEnv) : Bool :=
  match s.text with
  | some t => t.auth.isSome
  | none => false

/-- text.py _get_client: raises ValueError when not supported, otherwise
yields a client (abstracted to Unit). -/
def get_client (s : SettingsEnv) : Except PyErr Unit :=
  if is_supported s then Except.ok () else Except.error PyErr.valueError

/-- text.py send_message: the support guard is written `if is_supported()`
followed by a not-supported warning and return, exactly as in the source;
after the dry-run branch, `assert settings.text is None` runs and then
_get_client is called; .ok .sent models reaching _send_text. -/
def send_message (s : SettingsEnv) (dry_run : Bool) : Except PyErr TextOutcome :=
  if is_supported s then Except.ok TextOutcome.warnedNotSupported
  else if dry_run then Except.ok TextOutcome.dryRunLogged
  else
    match s.text with
    | some _ => Except.error PyErr.assertionError
    | none =>
      match get_client s with
      | Except.error e => Except.error e
      | Except.ok _ => Except.ok TextOutcome.sent

end TextService

namespace Contacts

/-- A raw directory phoneNumbers entry as read by services/contacts.py. -/
structure RawPhone where
  type : String
  primary : Bool
  canonicalForm : Option String
  value : String
deriving DecidableEq

/-- A raw directory emailAddresses entry as read by services/contacts.py. -/
structure RawEmail where
  type : String
  primary : Bool
  value : String
deriving DecidableEq

/-- A raw directory record restricted to the fields the two extraction
functions under study read. -/
structure RawRecord where
  phoneNumbers : List RawPhone
  emailAddresses : List RawEmail
deriving DecidableEq

/-- Python substring membership for the unreachable is_bot computation of
_get_email_addresses. -/
def strIn (needle hay : String) : Bool :=
  needle == "" || (hay.splitOn needle).length > 1

/-- Loop body of Contacts._get_mobile_numbers: for each entry the label
tuple (constants.MOBILE_LABEL, constants.BOT_LABEL) is evaluated first, so
the missing BOT_LABEL attribute raises before any entry is processed. -/
def getMobileNumbersLoop : List RawPhone → Except PyErr (List PhoneNumber)
  | [] => Except.ok []
  | e :: es =>
    match BOT_LABEL with
    | none => Except.error PyErr.attributeError
    | some bl =>
      if casefold e.type ≠ MOBILE_LABEL ∧ casefold e.type ≠ bl then
        getMobileNumbersLoop es
      else
        let number :=
          match e.canonicalForm with
          | some cf => cf
          | none => String.mk (e.value.data.filter (fun c => c ≠ ' '))
        (getMobileNumbersLoop es).map
          (fun rest => ⟨number, e.primary, casefold e.type == bl⟩ :: rest)

/-- Contacts._get_mobile_numbers on a raw record. -/
def get_mobile_numbers (rec : RawRecord) : Except PyErr (List PhoneNumber) :=
  getMobileNumbersLoop rec.phoneNumbers

/-- Loop body of Contacts._get_email_addresses: entries with unrecognized
labels are skipped; for a recognized entry the is_bot computation reads the
missing constants.BOT_LABEL attribute and raises. -/
def getEmailAddressesLoop : List RawEmail → Except PyErr (List EmailAddress)
  | [] => Except.ok []
  | e :: es =>
    let t := casefold e.type
    if t ∈ EMAIL_ADDRESS_LABELS then
      match BOT_LABEL with
      | none => Except.error PyErr.attributeError
      | some bl =>
        (getEmailAddressesLoop es).map
          (fun rest => ⟨e.value, e.primary, decide (t ∈ MOBILE_LABELS), strIn t bl⟩ :: rest)
    else getEmailAddressesLoop es

/-- Contacts._get_email_addresses on a raw record. -/
def get_email_addresses (rec : RawRecord) : Except PyErr (List EmailAddress) :=
  getEmailAddressesLoop rec.emailAddresses

end Contacts

/-- Follows the spec's words for primary_mobile_email(): of all
phone-derived addresses prefer one flagged is_bot, else one flagged
is_primary, else the first available, else none. For comparison with
Contact.get_primary_mobile_email_address. -/
def spec_primary_mobile_email (c : Contact) : Option EmailAddress :=
  let mob := c.email_addresses.filter (fun a => a.is_phone)
  match mob.find? (fun a => a.is_bot) with
  | some b => some b
  | none =>
    match mob.find? (fun a => a.is_primary) with
    | some p => some p
    | none => mob.head?

/-- The amended selection rule for the primary mobile email address: among
is_phone addresses, the first is_primary one, else the first in list order,
else none; no bot preference. -/
def amended_primary_mobile_email (c : Contact) : Option EmailAddress :=
  let mob := c.email_addresses.filter (fun a => a.is_phone)
  match mob.find? (fun a => a.is_primary) with
  | some p => some p
  | none => mob.head?

/-- Follows the spec's words for preferred_us_mobile_number(): filter to
numbers matching the US regex (ten digits with optional plus-one prefix);
prefer is_bot, else is_primary, else the first, else none. For comparison
with Contact.get_us_mobile_number. -/
def spec_preferred_us_mobile_number (c : Contact) : Option PhoneNumber :=
  let us := c.mobile_numbers.filter (fun n => is_us_phone_number n.number)
  match us.find? (fun n => n.is_bot) with
  | some b => some b
  | none =>
    match us.find? (fun n => n.is_primary) with
    | some p => some p
    | none => us.head?

/-- The amended derivation of all mobile gateway email addresses: the first
bot number's derived set when non-empty, else the first primary number's
derived set when non-empty, else the set derived from the FIRST number in
list order (which may be empty even when a later number would produce
addresses); empty when there are no mobile numbers. -/
def amended_all_mobile_gateway_emails (c : Contact) : List EmailAddress :=
  match c.mobile_numbers with
  | [] => []
  | n :: ns =>
    let pairs := (n :: ns).map (fun m => (m, m.get_email_addresses))
    match truthySetFind pairs (fun m => m.is_bot) with
    | some ea => ea
    | none =>
      match truthySetFind pairs (fun m => m.is_primary) with
      | some ea => ea
      | none => n.get_email_addresses

/- Concrete fixtures used by counterexamples and witnesses. -/

/-- A contact with every field empty, used as a base for fixtures. -/
def blankContact : Contact := ⟨"", "", none, [], [], [], [], [], []⟩

/-- A sender profile fixture. -/
def profileW : Profile :=
  ⟨"Bob", "Bob Jones", ⟨"3015550000", true, false⟩, ⟨"bob@example.com", true, false, false⟩⟩

/-- A transport on which every send returns normally. -/
def trOK : Transport := fun _ => none

/-- The reference date of the witness runs. -/
def dateW : PyDate := ⟨2030, 3, 15⟩

/-- A birthday falling on the witness reference date. -/
def dBirthday : DateTuple := ⟨DateType.BIRTHDAY, ⟨2001, 3, 15⟩⟩

/-- A primary, non-bot phone-derived email address. -/
def eA1 : EmailAddress := ⟨"a@example.com", true, true, false⟩

/-- A bot-flagged, non-primary phone-derived email address. -/
def eB1 : EmailAddress := ⟨"b@example.com", false, true, true⟩

/-- A contact holding a primary phone-derived address before a bot-flagged
one. -/
def c1x : Contact := { blankContact with email_addresses := [eA1, eB1] }

/-- A non-primary carrier-gateway address of a contact. -/
def eMob2 : EmailAddress := ⟨"2025551234@msg.fi.google.com", false, true, false⟩

/-- A primary plain email address of a contact. -/
def ePlain2 : EmailAddress := ⟨"amy@example.com", true, false, false⟩

/-- A contact with a resolvable carrier-gateway mobile email and a primary
plain email, and a birthday on the reference date. -/
def c2x : Contact :=
  { blankContact with
    given_name := "Amy", display_name := "Amy A",
    email_addresses := [eMob2, ePlain2], dates := [dBirthday] }

/-- A transport that raises on every subject-less single-address email (the
sends of the carrier-gateway email rule) and succeeds on everything else. -/
def tr2 : Transport := fun s =>
  match s with
  | Send.emailOne _ _ _ false => some PyErr.transportError
  | _ => none

/-- A rule that raises immediately. -/
def rErr : Rule := fun _ _ _ _ _ => ([], Except.error PyErr.transportError)

/-- A primary carrier-gateway address fixture. -/
def eMob4 : EmailAddress := ⟨"2025551234@msg.fi.google.com", true, true, false⟩

/-- A primary US mobile number fixture. -/
def n4 : PhoneNumber := ⟨"2025551234", true, false⟩

/-- A contact with both a usable carrier-gateway mobile email and a usable
US mobile number, and a birthday on the reference date. -/
def c4x : Contact :=
  { blankContact with
    given_name := "Amy", display_name := "Amy A",
    email_addresses := [eMob4], mobile_numbers := [n4], dates := [dBirthday] }

/-- An opted-out contact with a birthday on the reference date and a usable
mobile number. -/
def c5x : Contact :=
  { blankContact with
    given_name := "Amy", display_name := "Amy A",
    mobile_numbers := [n4], dates := [dBirthday],
    metadata := [(BOT_OPT_OUT, "True")] }

/-- A number the US regex rejects, deriving no gateway addresses. -/
def n6a : PhoneNumber := ⟨"555-0100", false, false⟩

/-- A US-classified number deriving gateway addresses. -/
def n6b : PhoneNumber := ⟨"2025551234", false, false⟩

/-- A contact whose first mobile number derives no gateway address while
its second one does; no bot or primary flags. -/
def c6x : Contact := { blankContact with mobile_numbers := [n6a, n6b] }

/-- A raw directory record with one phoneNumbers entry and one recognized
emailAddresses entry. -/
def rec8 : Contacts.RawRecord :=
  ⟨[⟨"mobile", true, some "+12025551234", "2025551234"⟩],
   [⟨"home", true, "amy@example.com"⟩]⟩

/-- A settings environment whose text block is present but has no auth, so
the text protocol is unsupported. -/
def s9 : TextService.SettingsEnv := ⟨some ⟨"+12025550000", none⟩⟩

/-- A contact in group family only, with a birthday on the reference
date. -/
def c10x : Contact :=
  { blankContact with
    given_name := "Amy", display_name := "Amy A",
    groups := ["family"], dates := [dBirthday] }

/-- The bot-primary-first selection chain of Contact.get_us_mobile_number,
abstracted over the already-filtered list. -/
def chainSelect (l : List PhoneNumber) : Option PhoneNumber :=
  match l.find? (fun n => n.is_bot) with
  | some b => some b
  | none =>
    match l.find? (fun n => n.is_primary) with
    | some p => some p
    | none => l.head?

/-- A selection made by chainSelect is a member of the list. -/
theorem chainSelect_mem (l : List PhoneNumber) (n : PhoneNumber)
    (h : chainSelect l = some n) : n ∈ l := by
  unfold chainSelect at h
  cases hb : l.find? (fun m => m.is_bot) with
  | some b =>
    rw [hb] at h
    cases h
    exact List.mem_of_find?_eq_some hb
  | none =>
    rw [hb] at h
    cases hp : l.find? (fun m => m.is_primary) with
    | some p =>
      rw [hp] at h
      cases h
      exact List.mem_of_find?_eq_some hp
    | none =>
      rw [hp] at h
      cases l with
      | nil => cases h
      | cons a t =>
        simp only [List.head?, Option.some.injEq] at h
        subst h
        exact List.mem_cons_self a t

/-- chainSelect yields none exactly on the empty list. -/
theorem chainSelect_none (l : List PhoneNumber) : chainSelect l = none ↔ l = [] := by
  constructor
  · intro h
    unfold chainSelect at h
    cases hb : l.find? (fun m => m.is_bot) with
    | some b => rw [hb] at h; cases h
    | none =>
      rw [hb] at h
      cases hp : l.find? (fun m => m.is_primary) with
      | some p => rw [hp] at h; cases h
      | none =>
        rw [hp] at h
        cases l with
        | nil => rfl
        | cons a t => simp at h
  · rintro rfl
    rfl

/-- Helper: a send loop over dates on which the transport never raises
performs one send per date, in order, and returns True. -/
theorem sendLoop_ok (tr : Transport) (mk : DateTuple → Send) :
    ∀ sds : List DateTuple, (∀ d ∈ sds, tr (mk d) = none) →
      Messaging.sendLoop tr mk sds = (sds.map mk, Except.ok true) := by
  intro sds h
  induction sds with
  | nil => rfl
  | cons d ds ih =>
    have hd : tr (mk d) = none := h d (by simp)
    have ht := ih (fun x hx => h x (by simp [hx]))
    simp [Messaging.sendLoop, hd, ht]

/-- Helper for C8: a raw email list containing a recognized entry makes the
extraction loop raise the BOT_LABEL AttributeError. -/
theorem getEmailLoop_err :
    ∀ (l : List Contacts.RawEmail) (e : Contacts.RawEmail), e ∈ l →
      casefold e.type ∈ EMAIL_ADDRESS_LABELS →
      Contacts.getEmailAddressesLoop l = Except.error PyErr.attributeError := by
  intro l
  induction l with
  | nil =>
    intro e he
    cases he
  | cons hd t ih =>
    intro e he hrec
    by_cases hh : casefold hd.type ∈ EMAIL_ADDRESS_LABELS
    · simp [Contacts.getEmailAddressesLoop, hh, BOT_LABEL]
    · rcases List.mem_cons.mp he with rfl | ht
      · exact absurd hrec hh
      · simpa [Contacts.getEmailAddressesLoop, hh] using ih e ht hrec

/-- C1: the spec's primary_mobile_email() prefers a bot-flagged
phone-derived address, but Contact.get_primary_mobile_email_address has no
bot preference: on a contact holding a primary phone-derived address and a
bot-flagged one, the code picks the primary one while the spec's selector
picks the bot one. -/
theorem C1_counterexample :
    Contact.get_primary_mobile_email_address c1x = some eA1
    ∧ spec_primary_mobile_email c1x = some eB1
    ∧ eA1 ≠ eB1 := by decide

/-- C1 (amended): for every Contact, get_primary_mobile_email_address
selects among the phone-derived addresses (those flagged is_phone) the
first primary-flagged one, else the first in list order, and returns none
when the contact has no such addresses; bot-flagged addresses get no
preference in this selector. -/
theorem C1_amended_correct (c : Contact) :
    c.get_primary_mobile_email_address = amended_primary_mobile_email c := by
  unfold Contact.get_primary_mobile_email_address amended_primary_mobile_email
  cases hm : c.email_addresses.filter (fun a => a.is_phone) with
  | nil => rfl
  | cons a rest =>
    cases hf : (a :: rest).find? (fun x => x.is_primary) <;> simp [hf]

/-- C2: the claim that dispatch stops at the first rule whose channel data
resolves non-empty even when its send raises is false: on a contact whose
carrier-gateway mobile email resolves (rule 1), a transport exception in
rule 1 is caught and a LATER rule performs a send — the run returns success
through the plain-email rule and logs one rule failure. -/
theorem C2_counterexample :
    c2x.get_primary_mobile_email_address = some eMob2
    ∧ Messaging.apply (Messaging.create_send_message_rules tr2 true true) profileW c2x dateW false
        = (true, [Send.emailOne ePlain2 DateType.BIRTHDAY "Amy" true], 1) := by decide

/-- C2 (amended): dispatch stops for a contact — returning success with no
later rule attempted — once a rule completes its sends without raising and
returns True; a rule whose send raises does not stop dispatch. -/
theorem C2_amended_stop_on_success (r : Rule) (rest : List Rule) (p : Profile)
    (c : Contact) (sds : List DateTuple) (sal : String) (dry : Bool)
    (sends : List Send) (h : r p c sds sal dry = (sends, Except.ok true)) :
    Messaging.runRules p c sds sal dry (r :: rest) = (true, sends, 0) := by
  simp [Messaging.runRules, h]

/-- Witness for C2 (amended): a concrete successful plain-email rule stops
the rule loop with exactly its own sends. -/
theorem C2_amended_witness :
    Messaging.runRules profileW c2x [dBirthday] "Amy" false
        (Messaging.email_rule trOK :: [Messaging.text_rule trOK])
      = (true, [Send.emailOne ePlain2 DateType.BIRTHDAY "Amy" true], 0) :=
  C2_amended_stop_on_success (Messaging.email_rule trOK) [Messaging.text_rule trOK]
    profileW c2x [dBirthday] "Amy" false
    [Send.emailOne ePlain2 DateType.BIRTHDAY "Amy" true] rfl

/-- C3: a rule that raises is caught at the rule boundary: the loop outcome
equals that of the remaining rules alone, the raising rule contributes its
partial sends and exactly one logged failure, and (last conjunct) the
per-contact dispatch of a run processes every contact independently — the
result for a head contact never aborts the processing of the tail. -/
theorem C3_rule_isolation :
    ∀ (r : Rule) (rest : List Rule) (p : Profile) (c : Contact)
      (sds : List DateTuple) (sal : String) (dry : Bool) (sends : List Send)
      (e : PyErr), r p c sds sal dry = (sends, Except.error e) →
      (Messaging.runRules p c sds sal dry (r :: rest)).1
          = (Messaging.runRules p c sds sal dry rest).1
      ∧ (Messaging.runRules p c sds sal dry (r :: rest)).2.1
          = sends ++ (Messaging.runRules p c sds sal dry rest).2.1
      ∧ (Messaging.runRules p c sds sal dry (r :: rest)).2.2
          = (Messaging.runRules p c sds sal dry rest).2.2 + 1
      ∧ ∀ (tr : Transport) (eS tS : Bool) (p2 : Profile) (c2 : Contact)
          (cs : List Contact) (date : PyDate) (dry2 : Bool),
          Messaging.supported_protocols eS tS ≠ [] →
          Messaging.send_messages tr eS tS none p2 (c2 :: cs) date dry2
            = Messaging.apply (Messaging.create_send_message_rules tr eS tS) p2 c2 date dry2
              :: Messaging.send_messages tr eS tS none p2 cs date dry2 := by
  intro r rest p c sds sal dry sends e h
  refine ⟨by simp [Messaging.runRules, h], by simp [Messaging.runRules, h],
    by simp [Messaging.runRules, h], ?_⟩
  intro tr eS tS p2 c2 cs date dry2 hsup
  have hs : (Messaging.supported_protocols eS tS).isEmpty = false := by
    cases hh : Messaging.supported_protocols eS tS with
    | nil => exact absurd hh hsup
    | cons a t => rfl
  simp [Messaging.send_messages, hs, Messaging.to_frozen_set]

/-- Witness for C3: a concrete raising rule leaves the loop outcome equal
to that of the remaining rules alone. -/
theorem C3_witness :
    (Messaging.runRules profileW c2x [dBirthday] "Amy" false
        (rErr :: [Messaging.email_rule trOK])).1
      = (Messaging.runRules profileW c2x [dBirthday] "Amy" false
          [Messaging.email_rule trOK]).1 :=
  (C3_rule_isolation rErr [Messaging.email_rule trOK] profileW c2x [dBirthday]
    "Amy" false [] PyErr.transportError rfl).1

/-- C4: with both protocols supported the rule list is exactly
[email-mobile, text, email-mobile-wide, email-plain] in that order, and for
a non-opted-out contact with an applicable date whose carrier-gateway
mobile email resolves (and whose email transport does not raise), dispatch
succeeds through the email-mobile rule with one subject-less gateway email
per date and no text send ever appears in the trace. -/
theorem C4_rule_order :
    ∀ (tr : Transport) (p : Profile) (c : Contact) (date : PyDate) (dry : Bool)
      (addr : EmailAddress),
      Messaging.create_send_message_rules tr true true
        = [Messaging.email_mobile_rule tr, Messaging.text_rule tr,
           Messaging.email_mobile_wide_rule tr, Messaging.email_rule tr]
      ∧ (c.opt_out_messages = false →
         c.get_primary_mobile_email_address = some addr →
         c.dates.filter (fun dt => dt.is_today date) ≠ [] →
         (∀ d ∈ c.dates.filter (fun dt => dt.is_today date),
            tr (Send.emailOne addr d.type c.saluation false) = none) →
         Messaging.apply (Messaging.create_send_message_rules tr true true) p c date dry
             = (true, (c.dates.filter (fun dt => dt.is_today date)).map
                 (fun d => Send.emailOne addr d.type c.saluation false), 0)
           ∧ ∀ s ∈ (Messaging.apply (Messaging.create_send_message_rules tr true true)
               p c date dry).2.1, s.isText = false) := by
  intro tr p c date dry addr
  refine ⟨rfl, ?_⟩
  intro hopt hmob hne htr
  have hrule : Messaging.email_mobile_rule tr p c
      (c.dates.filter (fun dt => dt.is_today date)) c.saluation dry
      = ((c.dates.filter (fun dt => dt.is_today date)).map
          (fun d => Send.emailOne addr d.type c.saluation false), Except.ok true) := by
    simp [Messaging.email_mobile_rule, hmob, sendLoop_ok tr _ _ htr]
  have hempty : (c.dates.filter (fun dt => dt.is_today date)).isEmpty = false := by
    cases hc : c.dates.filter (fun dt => dt.is_today date) with
    | nil => exact absurd hc hne
    | cons a t => rfl
  have happly : Messaging.apply (Messaging.create_send_message_rules tr true true) p c date dry
      = (true, (c.dates.filter (fun dt => dt.is_today date)).map
          (fun d => Send.emailOne addr d.type c.saluation false), 0) := by
    unfold Messaging.apply
    simp [hopt, hempty, Messaging.runRules, Messaging.create_send_message_rules, hrule]
  refine ⟨happly, ?_⟩
  rw [happly]
  intro s hs
  rcases List.mem_map.mp hs with ⟨d, _, rfl⟩
  rfl

/-- Witness for C4: the concrete contact with both usable channels gets its
message through the carrier-gateway email rule only. -/
theorem C4_witness :
    Messaging.apply (Messaging.create_send_message_rules trOK true true)
        profileW c4x dateW false
      = (true, (c4x.dates.filter (fun dt => dt.is_today dateW)).map
          (fun d => Send.emailOne eMob4 d.type c4x.saluation false), 0) :=
  ((C4_rule_order trOK profileW c4x dateW false eMob4).2 rfl rfl (by decide)
    (fun _ _ => rfl)).1

/-- C5: a contact whose BOT_OPT_OUT metadata value case-insensitively
equals true or 1 gets no message of any kind: dispatch returns False for
that contact with an empty send trace before any rule runs, for every
transport behavior, every pair of capability flags, and every reference
date. -/
theorem C5_opt_out :
    ∀ (tr : Transport) (eS tS : Bool) (p : Profile) (c : Contact)
      (date : PyDate) (dry : Bool) (v : String),
      c.metadata.lookup BOT_OPT_OUT = some v →
      casefold v ∈ TRUTHY →
      Messaging.apply (Messaging.create_send_message_rules tr eS tS) p c date dry
        = (false, [], 0) := by
  intro tr eS tS p c date dry v h1 h2
  have hopt : c.opt_out_messages = true := by
    simp [Contact.opt_out_messages, is_truthy, h1, h2]
  cases hr : (Messaging.create_send_message_rules tr eS tS).isEmpty <;>
    simp [Messaging.apply, hr, hopt]

/-- Witness for C5: the opted-out contact with a birthday on the reference
date and both protocols supported receives nothing. -/
theorem C5_witness :
    Messaging.apply (Messaging.create_send_message_rules trOK true true)
        profileW c5x dateW false = (false, [], 0) :=
  C5_opt_out trOK true true profileW c5x dateW false "True" rfl (by decide)

/-- C6: the claim that get_all_mobile_email_addresses returns the first
non-empty derived set — and is empty exactly when no number produces an
address — is false: on a contact whose first number derives nothing and
whose second (unflagged) number derives three gateway addresses, the code
returns the empty list. -/
theorem C6_counterexample :
    Contact.get_all_mobile_email_addresses c6x = []
    ∧ n6b ∈ c6x.mobile_numbers
    ∧ PhoneNumber.get_email_addresses n6b ≠ [] := by decide

/-- C6 (amended): get_all_mobile_email_addresses returns the first bot
number's derived set when that set is non-empty, else the first primary
number's derived set when non-empty, else the set derived from the first
number in list order even when that set is empty; it is empty when there
are no mobile numbers or when the applicable fallback set is empty. -/
theorem C6_amended_correct (c : Contact) :
    c.get_all_mobile_email_addresses = amended_all_mobile_gateway_emails c := by
  unfold Contact.get_all_mobile_email_addresses amended_all_mobile_gateway_emails
  cases c.mobile_numbers with
  | nil => rfl
  | cons n ns => rfl

/-- C7: get_us_mobile_number agrees with the spec's
preferred_us_mobile_number() selector — restrict to numbers matching the US
regex, then bot-flagged first, else primary-flagged, else first in list
order, else none — for every contact; moreover every selection is a
US-classified member of the contact's numbers, and none is returned exactly
when no number is US-classified. -/
theorem C7_preferred_us (c : Contact) :
    c.get_us_mobile_number = spec_preferred_us_mobile_number c
    ∧ (∀ n, c.get_us_mobile_number = some n →
        is_us_phone_number n.number = true ∧ n ∈ c.mobile_numbers)
    ∧ (c.get_us_mobile_number = none ↔
        ∀ n ∈ c.mobile_numbers, is_us_phone_number n.number = false) := by
  have hfil : c.mobile_numbers.filter (fun n => decide (n.country = some Country.US))
      = c.mobile_numbers.filter (fun n => is_us_phone_number n.number) := by
    refine List.filter_congr ?_
    intro n _
    cases h : is_us_phone_number n.number <;>
      simp [PhoneNumber.country, h]
  have hcode : c.get_us_mobile_number
      = chainSelect (c.mobile_numbers.filter (fun n => is_us_phone_number n.number)) := by
    unfold Contact.get_us_mobile_number chainSelect
    rw [← hfil]
  refine ⟨?_, ?_, ?_⟩
  · rw [hcode]
    unfold spec_preferred_us_mobile_number chainSelect
    rfl
  · intro n hn
    rw [hcode] at hn
    have hm := chainSelect_mem _ n hn
    rw [List.mem_filter] at hm
    exact ⟨hm.2, hm.1⟩
  · rw [hcode, chainSelect_none, List.filter_eq_nil_iff]
    constructor
    · intro h n hn
      have := h n hn
      simpa using this
    · intro h n hn
      simp [h n hn]

/-- Witness for C7: the selection on the concrete contact is a US-classified
member of its number list. -/
theorem C7_witness :
    is_us_phone_number n6b.number = true ∧ n6b ∈ c6x.mobile_numbers :=
  (C7_preferred_us c6x).2.1 n6b rfl

/-- C8: constants.py defines no BOT_LABEL, so any raw record with at least
one phoneNumbers entry makes _get_mobile_numbers raise AttributeError, and
any record with a recognized emailAddresses entry makes
_get_email_addresses raise the same error. -/
theorem C8_missing_bot_label :
    ∀ rec : Contacts.RawRecord,
      (rec.phoneNumbers ≠ [] →
        Contacts.get_mobile_numbers rec = Except.error PyErr.attributeError)
      ∧ (∀ e ∈ rec.emailAddresses,
          casefold e.type ∈ EMAIL_ADDRESS_LABELS →
          Contacts.get_email_addresses rec = Except.error PyErr.attributeError) := by
  intro rec
  constructor
  · intro h
    unfold Contacts.get_mobile_numbers
    cases hp : rec.phoneNumbers with
    | nil => exact absurd hp h
    | cons a t => simp [Contacts.getMobileNumbersLoop, BOT_LABEL]
  · intro e he hrec
    exact getEmailLoop_err rec.emailAddresses e he hrec

/-- Witness for C8: the concrete record with one mobile entry and one
home-labeled email entry makes both extraction functions raise. -/
theorem C8_witness :
    Contacts.get_mobile_numbers rec8 = Except.error PyErr.attributeError
    ∧ Contacts.get_email_addresses rec8 = Except.error PyErr.attributeError :=
  ⟨(C8_missing_bot_label rec8).1 (by decide),
   (C8_missing_bot_label rec8).2 ⟨"home", true, "amy@example.com"⟩ (by decide) (by decide)⟩

/-- C9: text.send_message with dry_run=False never reaches _send_text: when
the protocol is supported the inverted guard returns right after logging,
and when unsupported the function raises an AssertionError (settings.text
present without auth) or the ValueError from _get_client (settings.text
absent). -/
theorem C9_text_send_unreachable :
    ∀ s : TextService.SettingsEnv,
      TextService.send_message s false ≠ Except.ok TextService.TextOutcome.sent
      ∧ (TextService.is_supported s = true →
          TextService.send_message s false
            = Except.ok TextService.TextOutcome.warnedNotSupported)
      ∧ (TextService.is_supported s = false →
          TextService.send_message s false = Except.error PyErr.assertionError
          ∨ TextService.send_message s false = Except.error PyErr.valueError) := by
  intro s
  obtain ⟨t⟩ := s
  cases t with
  | none =>
    simp [TextService.send_message, TextService.is_supported, TextService.get_client]
  | some ts =>
    cases hts : ts.auth <;>
      simp [TextService.send_message, TextService.is_supported,
        TextService.get_client, hts]

/-- Witness for C9: the settings with a text block but no auth make
send_message raise before reaching the client. -/
theorem C9_witness :
    TextService.send_message s9 false = Except.error PyErr.assertionError
    ∨ TextService.send_message s9 false = Except.error PyErr.valueError :=
  (C9_text_send_unreachable s9).2.2 rfl

/-- C10: with a non-empty group restriction and at least one supported
protocol, send_messages dispatches to every contact of the input list
regardless of group membership — the _filter_contacts result is discarded
and the original list drives the dispatch loop. -/
theorem C10_filter_discarded :
    ∀ (tr : Transport) (eS tS : Bool) (gsArg : Option (List String))
      (g : List String) (p : Profile) (contacts : List Contact)
      (date : PyDate) (dry : Bool),
      Messaging.to_frozen_set gsArg = some g →
      Messaging.supported_protocols eS tS ≠ [] →
      Messaging.send_messages tr eS tS gsArg p contacts date dry
        = contacts.map (fun c =>
            Messaging.apply (Messaging.create_send_message_rules tr eS tS) p c date dry) := by
  intro tr eS tS gsArg g p contacts date dry h1 h2
  have hs : (Messaging.supported_protocols eS tS).isEmpty = false := by
    cases hh : Messaging.supported_protocols eS tS with
    | nil => exact absurd hh h2
    | cons a t => rfl
  cases contacts with
  | nil => simp [Messaging.send_messages, hs, h1]
  | cons a t => simp [Messaging.send_messages, hs, h1]

/-- Witness for C10: a contact in group family is dispatched under a
friends-only restriction. -/
theorem C10_witness :
    Messaging.send_messages trOK true false (some ["Friends"]) profileW [c10x] dateW false
      = [c10x].map (fun c =>
          Messaging.apply (Messaging.create_send_message_rules trOK true false)
            profileW c dateW false) :=
  C10_filter_discarded trOK true false (some ["Friends"]) ["friends"] profileW
    [c10x] dateW false rfl (by decide)

end ContactBot
